import Mathlib

/-!
Verification of the readiness-multiplexing core (gpoll.c) and the
cross-thread wakeup primitive (gwakeup.c) of this repository.

Each backend of `g_poll` is embedded as a pure Lean function.  Kernel
behaviour that the C code merely consumes (which descriptors the OS
reports ready, the events a kqueue collect call returns, the exit codes
of Win32 worker threads, how long a bare-metal sleep lasts) is passed in
as an explicit oracle parameter, so every function below is total and
executable.
-/

/-- Bitset of GLib IO conditions: G_IO_IN, G_IO_OUT, G_IO_PRI, G_IO_ERR,
G_IO_HUP.  The C code stores these as bits of a gushort; a record of
booleans is the same finite bitset. -/
structure GIOCondition where
  isIn : Bool
  isOut : Bool
  isPri : Bool
  isErr : Bool
  isHup : Bool
deriving DecidableEq, Repr

/-- The empty condition set (numeric value 0 in C). -/
def GIOCondition.empty : GIOCondition := ⟨false, false, false, false, false⟩

/-- G_IO_IN alone. -/
def gIOIn : GIOCondition := ⟨true, false, false, false, false⟩

/-- Bitwise OR of two condition sets. -/
def GIOCondition.union (a b : GIOCondition) : GIOCondition :=
  ⟨a.isIn || b.isIn, a.isOut || b.isOut, a.isPri || b.isPri,
   a.isErr || b.isErr, a.isHup || b.isHup⟩

/-! ## Select-based backend (the final `#else` branch of gpoll.c) -/

/-- One GPollFD as used by the select backend: descriptor, requested
events, result events. -/
structure GPollFD where
  fd : Int
  events : GIOCondition
  revents : GIOCondition
deriving DecidableEq, Repr

/-- FD_SET: a set of descriptors, modelled as a duplicate-free list. -/
def fdsetInsert (fd : Int) (s : List Int) : List Int :=
  if fd ∈ s then s else s ++ [fd]

/-- The loop of the select backend that builds one fd_set from the
entries whose `fd` is non-negative and whose `events` contain the given
interest bit. -/
def selectBuildSet (fds : List GPollFD) (interested : GIOCondition → Bool) : List Int :=
  fds.foldl (fun s f => if 0 ≤ f.fd ∧ interested f.events then fdsetInsert f.fd s else s) []

/-- Number of entries whose `revents` is non-empty. -/
def countNonemptyRevents (fds : List GPollFD) : Nat :=
  (fds.filter (fun f => f.revents ≠ GIOCondition.empty)).length

/-- The select backend of `g_poll`.  `readyR`/`readyW`/`readyX` are the
kernel's answer: which descriptors select(2) reports readable, writable,
exceptional.  select(2) returns the total number of bits set across the
three returned sets, and the code passes that number through; `revents`
is re-derived from set membership only when that number is positive. -/
def g_poll_select (fds : List GPollFD) (timeout : Int)
    (readyR readyW readyX : Int → Bool) : Int × List GPollFD :=
  let rset := (selectBuildSet fds (fun e => e.isIn)).filter readyR
  let wset := (selectBuildSet fds (fun e => e.isOut)).filter readyW
  let xset := (selectBuildSet fds (fun e => e.isPri)).filter readyX
  let ready : Int := ((rset.length + wset.length + xset.length : Nat) : Int)
  if 0 < ready then
    (ready,
     fds.map fun f =>
       if 0 ≤ f.fd then
         { f with revents := ⟨rset.contains f.fd, wset.contains f.fd, xset.contains f.fd,
                              false, false⟩ }
       else
         { f with revents := GIOCondition.empty })
  else
    (ready, fds)

/-! ## Kernel-event-queue (kqueue) backend of g_poll -/

/-- Reserved sentinel `fd` value marking a kqueue-variant GWakeup entry
(G_KQUEUE_WAKEUP_HANDLE).  Modelled from the spec: the constant lives in
a header outside the source fragment; only its distinctness from real
(non-negative) descriptors matters. -/
def G_KQUEUE_WAKEUP_HANDLE : Int := -2

/-- One GPollFD as used by the kqueue backend.  `handle` is the GWakeup
pointer stored in the union member for wakeup entries; we use a numeric
identity. -/
structure GPollFDK where
  fd : Int
  events : GIOCondition
  revents : GIOCondition
  handle : Nat
deriving DecidableEq, Repr

/-- kevent filter kinds the backend registers and consumes. -/
inductive KFilter where
  | fRead
  | fWrite
  | fExcept
  | fUser
deriving DecidableEq, Repr

/-- One kevent returned by the collect call: the filter, the registered
udata (index of the originating GPollFD for read/write/except filters),
the ident (the wakeup handle identity for user filters), and the flag
bits the processing loop inspects (EV_EOF, EV_ERROR, fflags ≠ 0,
EV_OOBAND). -/
structure KEv where
  filter : KFilter
  udata : Nat
  ident : Nat
  eof : Bool
  error : Bool
  fflagsNonzero : Bool
  oob : Bool
deriving DecidableEq, Repr

/-- Replace the i-th element of a list by `f` applied to it. -/
def listModifyAt (i : Nat) (f : GPollFDK → GPollFDK) : List GPollFDK → List GPollFDK
  | [] => []
  | x :: xs =>
    match i with
    | 0 => f x :: xs
    | j + 1 => x :: listModifyAt j f xs

/-- The `for (i = 0; i < ret; i++)` body of the kqueue backend: fold one
returned kevent into the revents of the GPollFD it targets. -/
def kq_apply_event (fds : List GPollFDK) (e : KEv) : List GPollFDK :=
  match e.filter with
  | KFilter.fRead =>
    listModifyAt e.udata (fun pfd =>
      let r := pfd.revents
      let r := if pfd.events.isIn then r.union gIOIn else r
      let r := if pfd.events.isPri ∧ e.oob then r.union ⟨false, false, true, false, false⟩ else r
      let r := if e.eof then
                 (r.union ⟨false, false, false, false, true⟩).union
                   (if e.fflagsNonzero then ⟨false, false, false, true, false⟩
                    else GIOCondition.empty)
               else r
      let r := if e.error then r.union ⟨false, false, false, true, false⟩ else r
      { pfd with revents := r }) fds
  | KFilter.fWrite =>
    listModifyAt e.udata (fun pfd =>
      let r := pfd.revents
      let r := if pfd.events.isOut then r.union ⟨false, true, false, false, false⟩ else r
      let r := if e.eof ∨ e.error then r.union ⟨false, false, false, true, false⟩ else r
      { pfd with revents := r }) fds
  | KFilter.fExcept =>
    listModifyAt e.udata (fun pfd =>
      let r := pfd.revents
      let r := if pfd.events.isPri then r.union ⟨false, false, true, false, false⟩ else r
      let r := if e.eof then r.union ⟨false, false, false, false, true⟩ else r
      let r := if e.error then r.union ⟨false, false, false, true, false⟩ else r
      { pfd with revents := r }) fds
  | KFilter.fUser =>
    fds.map (fun pfd =>
      if pfd.fd = G_KQUEUE_WAKEUP_HANDLE ∧ pfd.handle = e.ident ∧ pfd.events.isIn then
        { pfd with revents := pfd.revents.union gIOIn }
      else pfd)

/-- The revents-zeroing loop that runs after the collect call returns. -/
def kq_zero_revents (fds : List GPollFDK) : List GPollFDK :=
  fds.map (fun f => { f with revents := GIOCondition.empty })

/-- Number of entries whose `revents` is non-empty (the recount loop
that produces the kqueue backend's return value). -/
def countNonemptyReventsK (fds : List GPollFDK) : Nat :=
  (fds.filter (fun f => f.revents ≠ GIOCondition.empty)).length

/-- Number of wakeup-sentinel entries in the set. -/
def kq_numWakeupFds (fds : List GPollFDK) : Nat :=
  (fds.filter (fun f => f.fd = G_KQUEUE_WAKEUP_HANDLE)).length

/-- The kqueue backend of `g_poll`.  `kqFail` models `kqueue()` failing,
`regFail` models the registration `kevent` call failing on the
two-phase path taken when wakeup handles are present (the `goto beach`
that skips the revents zeroing), and `collect` is the kernel's answer
for the collect call: `none` for a failure (-1), `some evs` for a
return of `evs.length` events.  A collect failure still falls through
the zeroing loop before returning -1. -/
def g_poll_kqueue (fds : List GPollFDK) (timeout : Int) (kqFail : Bool)
    (regFail : Bool) (collect : Option (List KEv)) : Int × List GPollFDK :=
  if kqFail then (-1, fds)
  else if kq_numWakeupFds fds ≠ 0 ∧ regFail then (-1, fds)
  else
    match collect with
    | none => (-1, kq_zero_revents fds)
    | some evs =>
      let fds0 := kq_zero_revents fds
      let fds1 := evs.foldl kq_apply_event fds0
      if 0 < evs.length then (((countNonemptyReventsK fds1 : Nat) : Int), fds1)
      else (0, fds1)

/-! ## Bare-metal (G_OS_NONE) backend of g_poll, and its GWakeup variant -/

/-- Reserved sentinel `fd` value marking a bare-metal GWakeup entry
(G_WAIT_WAKEUP_HANDLE).  Modelled from the spec: the constant lives in
gwait.h, outside the source fragment; only its distinctness from real
descriptors matters. -/
def G_WAIT_WAKEUP_HANDLE : Int := -3

/-- G_TIME_SPAN_MILLISECOND: microseconds per millisecond. -/
def G_TIME_SPAN_MILLISECOND : Int := 1000

/-- G_MAXINT64, the deadline used for an infinite timeout. -/
def G_MAXINT64 : Int := 9223372036854775807

/-- The bare-metal GWakeup: an atomic `signalled` flag plus the token of
the (at most one) in-flight g_poll call referencing it.  Tokens are
identified by a number. -/
structure GWakeupN where
  signalled : Bool
  token : Option Nat
deriving DecidableEq, Repr

/-- One GPollFD as used by the bare-metal backend; `userData` is the
GWakeup identity stored in the user_data union member (meaningful only
for wakeup-sentinel entries).  Wakeup state itself lives in a store
`Nat → GWakeupN` so that several entries may alias one GWakeup. -/
structure GPollFDN where
  fd : Int
  events : GIOCondition
  revents : GIOCondition
  userData : Nat
deriving DecidableEq, Repr

/-- g_wakeup_signal (G_OS_NONE): atomically set `signalled`, then wake
the registered token if any (the wake itself changes no GWakeup state). -/
def g_wakeup_signal_none (w : Nat) (ws : Nat → GWakeupN) : Nat → GWakeupN :=
  fun i => if i = w then { ws i with signalled := true } else ws i

/-- g_wakeup_acknowledge (G_OS_NONE): atomically clear `signalled`. -/
def g_wakeup_acknowledge_none (w : Nat) (ws : Nat → GWakeupN) : Nat → GWakeupN :=
  fun i => if i = w then { ws i with signalled := false } else ws i

/-- Whether some entry of the poll set is a wakeup-sentinel entry for
GWakeup `i`. -/
def isWakeupEntryFor (fds : List GPollFDN) (i : Nat) : Bool :=
  fds.any (fun p => decide (p.fd = G_WAIT_WAKEUP_HANDLE ∧ p.userData = i))

/-- The registration (and, with `t = none`, the unregistration) loops of
the bare-metal g_poll: store `t` into the token field of every GWakeup
referenced by a wakeup entry of the set. -/
def none_set_tokens (fds : List GPollFDN) (t : Option Nat) (ws : Nat → GWakeupN) :
    Nat → GWakeupN :=
  fun i => if isWakeupEntryFor fds i then { ws i with token := t } else ws i

/-- Whether one pass of the re-check loop finds this entry ready: it is
a wakeup-sentinel entry whose GWakeup is currently signalled. -/
def none_ready (ws : Nat → GWakeupN) (p : GPollFDN) : Bool :=
  decide (p.fd = G_WAIT_WAKEUP_HANDLE) && (ws p.userData).signalled

/-- One pass of the re-check loop: zero every `revents`, set `G_IO_IN`
on the signalled wakeup entries, and count them. -/
def none_check (ws : Nat → GWakeupN) (fds : List GPollFDN) : Int × List GPollFDN :=
  ((((fds.filter (none_ready ws)).length : Nat) : Int),
   fds.map fun p =>
     { p with revents := if none_ready ws p then gIOIn else GIOCondition.empty })

/-- Result of one bare-metal g_poll call: the ready count, the poll set
with its result fields, the wakeup store, and the monotonic time at
which the call returned. -/
structure NonePollResult where
  ready : Int
  fds : List GPollFDN
  ws : Nat → GWakeupN
  retTime : Int

/-- The bare-metal backend of `g_poll`.  Time is virtual: `now0` is the
monotonic clock at entry, and the single `g_wait_sleep` the loop can
perform returns after `sleepElapsed` microseconds (the platform hook
may be woken early, or spuriously).  `sigs` records which GWakeups are
signalled by other threads while the call sleeps.  The loop runs at most
two check passes: the `slept` flag makes the pass after a sleep
unconditionally final. -/
def g_poll_none (fds : List GPollFDN) (timeout : Int) (now0 : Int)
    (sleepElapsed : Int) (sigs : Nat → Bool) (tok : Nat) (ws : Nat → GWakeupN) :
    NonePollResult :=
  let deadline : Int :=
    if timeout = -1 then G_MAXINT64 else now0 + timeout * G_TIME_SPAN_MILLISECOND
  let ws1 := none_set_tokens fds (some tok) ws
  let c1 := none_check ws1 fds
  if 0 < c1.1 ∨ timeout = 0 then
    ⟨c1.1, c1.2, none_set_tokens fds none ws1, now0⟩
  else if timeout ≠ -1 ∧ deadline ≤ now0 then
    ⟨c1.1, c1.2, none_set_tokens fds none ws1, now0⟩
  else
    let ws2 := fun i => if sigs i then { ws1 i with signalled := true } else ws1 i
    let c2 := none_check ws2 fds
    ⟨c2.1, c2.2, none_set_tokens fds none ws2, now0 + sleepElapsed⟩

/-- The token of one in-flight bare-metal poll call: the call's poll set
(the GPollOperation the token points at). -/
structure GPollOperation where
  fds : List GPollFDN

/-- g_wait_is_set: whether some wakeup entry of the token's poll set is
currently signalled. -/
def g_wait_is_set (op : GPollOperation) (ws : Nat → GWakeupN) : Bool :=
  op.fds.any (fun p => decide (p.fd = G_WAIT_WAKEUP_HANDLE) && (ws p.userData).signalled)

/-! ## Handle-wait (Win32) backend of g_poll -/

/-- The Windows per-call object ceiling. -/
def MAXIMUM_WAIT_OBJECTS : Nat := 64

/-- One slot per worker is reserved for a possible msg object or the
stop event. -/
def MAXIMUM_WAIT_OBJECTS_PER_THREAD : Nat := MAXIMUM_WAIT_OBJECTS - 1

/-- The sentinel `fd` value G_WIN32_MSG_HANDLE that requests polling the
thread's message queue. -/
def G_WIN32_MSG_HANDLE : Int := 19

/-- One GPollFD as used by the handle-wait backend (the `fd` field holds
a HANDLE value). -/
structure GPollFDW where
  fd : Int
  events : GIOCondition
  revents : GIOCondition
deriving DecidableEq, Repr

/-- The handle-count bookkeeping of one GWin32PollThreadData: how many
slots of the `handles` array are filled and whether a msg entry was
seen. -/
structure W32ThreadData where
  nhandles : Nat
  hasMsg : Bool
  hasStop : Bool
deriving DecidableEq, Repr

/-- One iteration of the descriptor loop of `fill_poll_thread_data`.
Once the too-many-handles guard has fired it stays true (nhandles never
shrinks, hasMsg is never cleared), so folding this step is the loop with
its `break`. -/
def fill_step (d : W32ThreadData) (f : GPollFDW) : W32ThreadData :=
  if d.nhandles = MAXIMUM_WAIT_OBJECTS ∨
     (d.hasMsg ∧ d.nhandles = MAXIMUM_WAIT_OBJECTS - 1) then d
  else if f.fd = G_WIN32_MSG_HANDLE ∧ f.events.isIn then { d with hasMsg := true }
  else if 0 < f.fd then { d with nhandles := d.nhandles + 1 }
  else d

/-- fill_poll_thread_data: optionally install the stop event (one handle
slot), then fold the descriptor loop. -/
def fill_poll_thread_data (fds : List GPollFDW) (stop : Bool) (d0 : W32ThreadData) :
    W32ThreadData :=
  let d := if stop then { d0 with nhandles := d0.nhandles + 1, hasStop := true } else d0
  fds.foldl fill_step d

/-- The thread-count computation of the threaded path: `nfds / 63`,
rounded up when there is a remainder, then capped (with a warning) at
63. -/
def win32_nthreads (nfds : Nat) : Nat :=
  let n := nfds / MAXIMUM_WAIT_OBJECTS_PER_THREAD
  let n := if 0 < nfds % MAXIMUM_WAIT_OBJECTS_PER_THREAD then n + 1 else n
  if MAXIMUM_WAIT_OBJECTS_PER_THREAD < n then MAXIMUM_WAIT_OBJECTS_PER_THREAD else n

/-- The number of descriptors handed to worker `i` by the spawning loop:
the remainder for the last worker when there is one, a full group of 63
otherwise. -/
def win32_thread_fds (nfds i : Nat) : Nat :=
  if i = win32_nthreads nfds - 1 ∧ 0 < nfds % MAXIMUM_WAIT_OBJECTS_PER_THREAD then
    nfds % MAXIMUM_WAIT_OBJECTS_PER_THREAD
  else MAXIMUM_WAIT_OBJECTS_PER_THREAD

/-- The per-worker group sizes of the fan-out, in spawn order. -/
def win32_group_sizes (nfds : Nat) : List Nat :=
  (List.range (win32_nthreads nfds)).map (win32_thread_fds nfds)

/-- One step of the exit-code merging loop: a failure (-1) from any
worker, or an already failed accumulator, makes the aggregate -1;
otherwise the worker's ready count is added. -/
def win32_merge_step (acc : Int) (r : Int) : Int :=
  if acc = -1 then -1 else if r = -1 then -1 else acc + r

/-- Zero every revents (the all-or-nothing reset on failure). -/
def win32_zero_revents (fds : List GPollFDW) : List GPollFDW :=
  fds.map (fun f => { f with revents := GIOCondition.empty })

/-- The result-merging tail of the threaded Win32 g_poll (lines after
all workers were joined).  `fds` is the poll set as the workers left it,
`msgReady` tells whether the main thread's MsgWait ended because of a
pending message, and `threadRets` are the workers' exit codes.  On a
merged failure every revents is reset and -1 is returned. -/
def g_poll_win32_threaded (fds : List GPollFDW) (msgReady : Bool)
    (threadRets : List Int) : Int × List GPollFDW :=
  let retval : Int := if msgReady then 1 else 0
  let retval := threadRets.foldl win32_merge_step retval
  if retval = -1 then (-1, win32_zero_revents fds) else (retval, fds)

/-- The single-thread path of the Win32 g_poll: `r` is what
poll_single_thread returned; a failure resets every revents. -/
def g_poll_win32_single (fds : List GPollFDW) (r : Int) : Int × List GPollFDW :=
  if r = -1 then (-1, win32_zero_revents fds) else (r, fds)

/-! ## The remaining GWakeup variants -/

/-- g_wakeup_signal for the Win32 variant: SetEvent on the event object
(its signalled state is the whole observable state). -/
def g_wakeup_signal_w32 (w : Bool) : Bool := true

/-- g_wakeup_acknowledge for the Win32 variant: ResetEvent. -/
def g_wakeup_acknowledge_w32 (w : Bool) : Bool := false

/-- g_wakeup_signal for the eventfd/pipe variant: one more unread unit
in the descriptor (a counter increment, or one byte written into the
pipe). -/
def g_wakeup_signal_unix (counter : Nat) : Nat := counter + 1

/-- g_wakeup_acknowledge for the eventfd/pipe variant: read until empty,
leaving no unread units. -/
def g_wakeup_acknowledge_unix (counter : Nat) : Nat := 0

/-- Whether the eventfd/pipe descriptor polls readable: some unread unit
exists. -/
def unix_wakeup_ready (counter : Nat) : Bool := decide (counter ≠ 0)

/-- The kqueue GWakeup: the queue it is currently realized into (none
models kq == -1) and the pending signal count. -/
structure GWakeupKq where
  kq : Option Int
  pending : Nat
deriving DecidableEq, Repr

/-- Trigger the EVFILT_USER registration of this wakeup in kernel queue
`k` (NOTE_TRIGGER).  Queue state is the per-queue triggered flag of that
registration. -/
def kq_trigger (k : Int) (qs : Int → Bool) : Int → Bool :=
  fun q => if q = k then true else qs q

/-- g_wakeup_signal_unlocked: trigger the user event when realized into
a queue, and always increment `pending`. -/
def g_wakeup_signal_unlocked_kq (w : GWakeupKq) (qs : Int → Bool) :
    GWakeupKq × (Int → Bool) :=
  match w.kq with
  | some k => ({ w with pending := w.pending + 1 }, kq_trigger k qs)
  | none => ({ w with pending := w.pending + 1 }, qs)

/-- g_wakeup_signal for the kqueue variant (the mutex around the
unlocked body adds nothing to the sequential model). -/
def g_wakeup_signal_kq (w : GWakeupKq) (qs : Int → Bool) : GWakeupKq × (Int → Bool) :=
  g_wakeup_signal_unlocked_kq w qs

/-- g_wakeup_kqueue_realize: remember the poll call's queue and re-issue
the trigger when signals are already pending. -/
def g_wakeup_kqueue_realize (w : GWakeupKq) (k : Int) (qs : Int → Bool) :
    GWakeupKq × (Int → Bool) :=
  let w1 := { w with kq := some k }
  if w1.pending ≠ 0 then g_wakeup_signal_unlocked_kq w1 qs else (w1, qs)

/-- g_wakeup_kqueue_unrealize: forget the queue. -/
def g_wakeup_kqueue_unrealize (w : GWakeupKq) : GWakeupKq := { w with kq := none }

/-- g_wakeup_acknowledge for the kqueue variant: EV_DELETE then EV_ADD
resets the trigger of the registration in the realized queue (a no-op
on an unrealized wakeup, where the kevent call fails silently), and
`pending` drops to zero. -/
def g_wakeup_acknowledge_kq (w : GWakeupKq) (qs : Int → Bool) :
    GWakeupKq × (Int → Bool) :=
  ({ w with pending := 0 },
   match w.kq with
   | some k => fun q => if q = k then false else qs q
   | none => qs)

/-- The readiness a g_poll call on queue `k` observes from this wakeup:
the poll call realizes the wakeup into its fresh queue and then collects
the user event, which fires exactly when the registration is
triggered. -/
def kq_observe (w : GWakeupKq) (k : Int) (qs : Int → Bool) : Bool :=
  (g_wakeup_kqueue_realize w k qs).2 k

/-- Signal the kqueue wakeup as a single step on the pair of wakeup and
kernel-queue state, for iteration. -/
def kq_signal_pair (s : GWakeupKq × (Int → Bool)) : GWakeupKq × (Int → Bool) :=
  g_wakeup_signal_kq s.1 s.2

/-! ## Helper lemmas -/

lemma none_set_tokens_signalled (fds : List GPollFDN) (t : Option Nat)
    (ws : Nat → GWakeupN) (i : Nat) :
    ((none_set_tokens fds t ws) i).signalled = (ws i).signalled := by
  unfold none_set_tokens
  split <;> rfl

lemma win32_merge_foldl_neg (rets : List Int) :
    rets.foldl win32_merge_step (-1) = -1 := by
  induction rets with
  | nil => rfl
  | cons r rs ih => simpa [win32_merge_step] using ih

lemma win32_merge_foldl_of_mem (rets : List Int) (init : Int)
    (h : (-1 : Int) ∈ rets) : rets.foldl win32_merge_step init = -1 := by
  induction rets generalizing init with
  | nil => cases h
  | cons r rs ih =>
    rcases List.mem_cons.mp h with h1 | h2
    · have hs : win32_merge_step init r = -1 := by
        subst h1
        simp [win32_merge_step]
      rw [List.foldl_cons, hs, win32_merge_foldl_neg]
    · rw [List.foldl_cons]
      exact ih _ h2

lemma win32_zero_revents_mem (fds : List GPollFDW) (f : GPollFDW)
    (h : f ∈ win32_zero_revents fds) : f.revents = GIOCondition.empty := by
  rcases List.mem_map.mp h with ⟨g, _, rfl⟩
  rfl

/-! ## Claim theorems -/

/-- C10: in the bare-metal backend, `g_wait_is_set token` returns TRUE
exactly when at least one entry of the token's poll set is a
WakeupHandle sentinel descriptor whose signalled flag is set, and in
particular returns FALSE for every poll set containing no WakeupHandle
descriptor. -/
theorem g_wait_is_set_iff_signalled_wakeup (op : GPollOperation) (ws : Nat → GWakeupN) :
    (g_wait_is_set op ws = true ↔
      ∃ p ∈ op.fds, p.fd = G_WAIT_WAKEUP_HANDLE ∧ (ws p.userData).signalled = true) ∧
    ((∀ p ∈ op.fds, p.fd ≠ G_WAIT_WAKEUP_HANDLE) → g_wait_is_set op ws = false) := by
  constructor
  · simp [g_wait_is_set, List.any_eq_true]
  · intro h
    rw [Bool.eq_false_iff]
    intro habs
    rw [g_wait_is_set, List.any_eq_true] at habs
    rcases habs with ⟨p, hp, hq⟩
    rw [Bool.and_eq_true, decide_eq_true_eq] at hq
    exact h p hp hq.1

/-- Closed instance of the C10 theorem on a concrete poll set. -/
theorem g_wait_is_set_iff_signalled_wakeup_witness :
    (g_wait_is_set ⟨[⟨G_WAIT_WAKEUP_HANDLE, gIOIn, GIOCondition.empty, 0⟩]⟩
        (fun _ => ⟨true, none⟩) = true ↔
      ∃ p ∈ ([⟨G_WAIT_WAKEUP_HANDLE, gIOIn, GIOCondition.empty, 0⟩] : List GPollFDN),
        p.fd = G_WAIT_WAKEUP_HANDLE ∧
          ((fun (_ : Nat) => (⟨true, none⟩ : GWakeupN)) p.userData).signalled = true) ∧
    ((∀ p ∈ [(⟨G_WAIT_WAKEUP_HANDLE, gIOIn, GIOCondition.empty, 0⟩ : GPollFDN)],
        p.fd ≠ G_WAIT_WAKEUP_HANDLE) →
      g_wait_is_set ⟨[⟨G_WAIT_WAKEUP_HANDLE, gIOIn, GIOCondition.empty, 0⟩]⟩
        (fun _ => ⟨true, none⟩) = false) :=
  g_wait_is_set_iff_signalled_wakeup ⟨[⟨G_WAIT_WAKEUP_HANDLE, gIOIn, GIOCondition.empty, 0⟩]⟩
    (fun _ => ⟨true, none⟩)

/-- C9: in the kqueue WakeupHandle variant, a signal issued while the
handle is realized into no queue (kq = -1) still increments the pending
count and leaves every kernel queue untouched, and a later realization
into a queue re-issues the user trigger because pending is non-zero, so
the signal is observed as readiness by the poll call that performs the
realization. -/
theorem kqueue_signal_before_realize_observed (w : GWakeupKq) (qs : Int → Bool)
    (k : Int) (hkq : w.kq = none) :
    (g_wakeup_signal_kq w qs).1.pending = w.pending + 1 ∧
    (g_wakeup_signal_kq w qs).2 = qs ∧
    kq_observe (g_wakeup_signal_kq w qs).1 k (g_wakeup_signal_kq w qs).2 = true := by
  rw [g_wakeup_signal_kq, g_wakeup_signal_unlocked_kq, hkq]
  refine ⟨rfl, rfl, ?_⟩
  rw [kq_observe, g_wakeup_kqueue_realize]
  simp [g_wakeup_signal_unlocked_kq, kq_trigger]

/-- Closed instance of the C9 theorem on a concrete unrealized wakeup. -/
theorem kqueue_signal_before_realize_observed_witness :
    (g_wakeup_signal_kq ⟨none, 0⟩ (fun _ => false)).1.pending = 0 + 1 ∧
    (g_wakeup_signal_kq ⟨none, 0⟩ (fun _ => false)).2 = (fun _ => false) ∧
    kq_observe (g_wakeup_signal_kq ⟨none, 0⟩ (fun _ => false)).1 7
      (g_wakeup_signal_kq ⟨none, 0⟩ (fun _ => false)).2 = true :=
  kqueue_signal_before_realize_observed ⟨none, 0⟩ (fun _ => false) 7 rfl

/-- C5: in the handle-wait backend, a failure reported by any worker
makes the aggregate call return the failure sentinel with every
descriptor's result reset to empty, and the single-thread path resets
every result the same way when its wait fails. -/
theorem win32_failure_is_all_or_nothing (fds : List GPollFDW) (msgReady : Bool)
    (rets : List Int) (hmem : (-1 : Int) ∈ rets) :
    ((g_poll_win32_threaded fds msgReady rets).1 = -1 ∧
      ∀ f ∈ (g_poll_win32_threaded fds msgReady rets).2,
        f.revents = GIOCondition.empty) ∧
    ((g_poll_win32_single fds (-1)).1 = -1 ∧
      ∀ f ∈ (g_poll_win32_single fds (-1)).2, f.revents = GIOCondition.empty) := by
  have hth : g_poll_win32_threaded fds msgReady rets = (-1, win32_zero_revents fds) := by
    rw [g_poll_win32_threaded]
    rw [win32_merge_foldl_of_mem rets _ hmem]
    simp
  have hsg : g_poll_win32_single fds (-1) = (-1, win32_zero_revents fds) := by
    rw [g_poll_win32_single]
    simp
  rw [hth, hsg]
  exact ⟨⟨rfl, fun f hf => win32_zero_revents_mem fds f hf⟩,
         ⟨rfl, fun f hf => win32_zero_revents_mem fds f hf⟩⟩

/-- Closed instance of the C5 theorem: two workers, one failing. -/
theorem win32_failure_is_all_or_nothing_witness :
    ((g_poll_win32_threaded [⟨5, gIOIn, gIOIn⟩] false [1, -1]).1 = -1 ∧
      ∀ f ∈ (g_poll_win32_threaded [⟨5, gIOIn, gIOIn⟩] false [1, -1]).2,
        f.revents = GIOCondition.empty) ∧
    ((g_poll_win32_single [⟨5, gIOIn, gIOIn⟩] (-1)).1 = -1 ∧
      ∀ f ∈ (g_poll_win32_single [⟨5, gIOIn, gIOIn⟩] (-1)).2,
        f.revents = GIOCondition.empty) :=
  win32_failure_is_all_or_nothing [⟨5, gIOIn, gIOIn⟩] false [1, -1] (by decide)

lemma g_poll_none_timeout_zero (fds : List GPollFDN) (now0 se : Int)
    (sigs : Nat → Bool) (tok : Nat) (ws : Nat → GWakeupN) :
    g_poll_none fds 0 now0 se sigs tok ws =
      ⟨(none_check (none_set_tokens fds (some tok) ws) fds).1,
       (none_check (none_set_tokens fds (some tok) ws) fds).2,
       none_set_tokens fds none (none_set_tokens fds (some tok) ws), now0⟩ := by
  simp [g_poll_none]

lemma none_check_fst (ws : Nat → GWakeupN) (fds : List GPollFDN) :
    (none_check ws fds).1 = ((fds.filter (none_ready ws)).length : Int) := rfl

lemma none_check_snd (ws : Nat → GWakeupN) (fds : List GPollFDN) :
    (none_check ws fds).2 =
      fds.map (fun p =>
        { p with revents := if none_ready ws p then gIOIn else GIOCondition.empty }) := rfl

lemma none_ready_of_aliased (fds : List GPollFDN) (tok w : Nat) (ws : Nat → GWakeupN)
    (p : GPollFDN) (hfd : p.fd = G_WAIT_WAKEUP_HANDLE) (hud : p.userData = w)
    (hsig : (ws w).signalled = true) :
    none_ready (none_set_tokens fds (some tok) ws) p = true := by
  rw [none_ready, none_set_tokens_signalled, hfd, hud, hsig]
  simp

/-- C3: in the bare-metal backend, once `g_wakeup_signal w` has run and
is not yet acknowledged, a non-blocking g_poll (timeout 0) on a set
containing w's sentinel descriptor returns a positive count and reports
G_IO_IN on that descriptor; after `g_wakeup_acknowledge w`, an
immediately following non-blocking g_poll on the same set (whose wakeup
entries all refer to w) returns 0 with every result field empty. -/
theorem none_signal_poll_acknowledge_roundtrip (fds : List GPollFDN) (w : Nat)
    (now0 se : Int) (sigs : Nat → Bool) (tok : Nat) (ws : Nat → GWakeupN)
    (hmem : ∃ p ∈ fds, p.fd = G_WAIT_WAKEUP_HANDLE ∧ p.userData = w)
    (hall : ∀ p ∈ fds, p.fd = G_WAIT_WAKEUP_HANDLE → p.userData = w) :
    (0 < (g_poll_none fds 0 now0 se sigs tok (g_wakeup_signal_none w ws)).ready ∧
     ∀ p ∈ (g_poll_none fds 0 now0 se sigs tok (g_wakeup_signal_none w ws)).fds,
       p.fd = G_WAIT_WAKEUP_HANDLE → p.revents = gIOIn) ∧
    ((g_poll_none fds 0 now0 se sigs tok
        (g_wakeup_acknowledge_none w (g_wakeup_signal_none w ws))).ready = 0 ∧
     ∀ p ∈ (g_poll_none fds 0 now0 se sigs tok
        (g_wakeup_acknowledge_none w (g_wakeup_signal_none w ws))).fds,
       p.revents = GIOCondition.empty) := by
  constructor
  · rw [g_poll_none_timeout_zero]
    dsimp only
    have hsig : ((g_wakeup_signal_none w ws) w).signalled = true := by
      simp [g_wakeup_signal_none]
    constructor
    · rw [none_check_fst]
      rcases hmem with ⟨p, hp, hfd, hud⟩
      have hpf : p ∈ fds.filter (none_ready (none_set_tokens fds (some tok)
          (g_wakeup_signal_none w ws))) :=
        List.mem_filter.mpr ⟨hp, none_ready_of_aliased fds tok w _ p hfd hud hsig⟩
      have hlen : 0 < (fds.filter (none_ready (none_set_tokens fds (some tok)
          (g_wakeup_signal_none w ws)))).length :=
        List.length_pos.mpr (List.ne_nil_of_mem hpf)
      exact_mod_cast hlen
    · intro p hp hfd
      rw [none_check_snd] at hp
      rcases List.mem_map.mp hp with ⟨q, hq, rfl⟩
      have hud : q.userData = w := hall q hq hfd
      rw [none_ready_of_aliased fds tok w _ q hfd hud hsig]
      rfl
  · rw [g_poll_none_timeout_zero]
    dsimp only
    have hnr : ∀ p ∈ fds,
        none_ready (none_set_tokens fds (some tok)
          (g_wakeup_acknowledge_none w (g_wakeup_signal_none w ws))) p = false := by
      intro p hp
      rw [none_ready, none_set_tokens_signalled]
      by_cases hfd : p.fd = G_WAIT_WAKEUP_HANDLE
      · have hud : p.userData = w := hall p hp hfd
        rw [hud]
        simp [g_wakeup_acknowledge_none]
      · simp [hfd]
    constructor
    · rw [none_check_fst]
      have hemp : fds.filter (none_ready (none_set_tokens fds (some tok)
          (g_wakeup_acknowledge_none w (g_wakeup_signal_none w ws)))) = [] := by
        rw [List.filter_eq_nil_iff]
        intro p hp
        rw [hnr p hp]
        exact Bool.false_ne_true
      rw [hemp]
      rfl
    · intro p hp
      rw [none_check_snd] at hp
      rcases List.mem_map.mp hp with ⟨q, hq, rfl⟩
      rw [hnr q hq]
      rfl

/-- Closed instance of the C3 theorem on a one-entry poll set. -/
theorem none_signal_poll_acknowledge_roundtrip_witness :
    (0 < (g_poll_none [⟨G_WAIT_WAKEUP_HANDLE, gIOIn, GIOCondition.empty, 0⟩] 0 0 0
        (fun _ => false) 0
        (g_wakeup_signal_none 0 (fun _ => ⟨false, none⟩))).ready ∧
     ∀ p ∈ (g_poll_none [⟨G_WAIT_WAKEUP_HANDLE, gIOIn, GIOCondition.empty, 0⟩] 0 0 0
        (fun _ => false) 0
        (g_wakeup_signal_none 0 (fun _ => ⟨false, none⟩))).fds,
       p.fd = G_WAIT_WAKEUP_HANDLE → p.revents = gIOIn) ∧
    ((g_poll_none [⟨G_WAIT_WAKEUP_HANDLE, gIOIn, GIOCondition.empty, 0⟩] 0 0 0
        (fun _ => false) 0
        (g_wakeup_acknowledge_none 0
          (g_wakeup_signal_none 0 (fun _ => ⟨false, none⟩)))).ready = 0 ∧
     ∀ p ∈ (g_poll_none [⟨G_WAIT_WAKEUP_HANDLE, gIOIn, GIOCondition.empty, 0⟩] 0 0 0
        (fun _ => false) 0
        (g_wakeup_acknowledge_none 0
          (g_wakeup_signal_none 0 (fun _ => ⟨false, none⟩)))).fds,
       p.revents = GIOCondition.empty) :=
  none_signal_poll_acknowledge_roundtrip
    [⟨G_WAIT_WAKEUP_HANDLE, gIOIn, GIOCondition.empty, 0⟩] 0 0 0 (fun _ => false) 0
    (fun _ => ⟨false, none⟩) (by decide) (by decide)

lemma g_poll_none_ws_char (fds : List GPollFDN) (timeout now0 se : Int) (tok : Nat)
    (ws : Nat → GWakeupN) (i : Nat) :
    (g_poll_none fds timeout now0 se (fun _ => false) tok ws).ws i =
      (if isWakeupEntryFor fds i then { ws i with token := none } else ws i) := by
  simp only [g_poll_none]
  repeat' split
  all_goals unfold none_set_tokens
  all_goals by_cases h : isWakeupEntryFor fds i <;> simp_all

/-- C7: in the bare-metal backend, every GWakeup referenced by a wakeup
entry of the set has its token field set to the call's token at entry
and holds no token again when g_poll returns, on every exit path (the
branch structure of `g_poll_none` covers ready, timeout-0, deadline
expiry and the post-sleep pass); and, in a run with no concurrent
signal, g_poll leaves every GWakeup's signalled flag exactly as it was,
and does not touch GWakeups the set never references. -/
theorem none_token_registered_and_cleared (fds : List GPollFDN)
    (timeout now0 se : Int) (tok : Nat) (ws : Nat → GWakeupN) :
    (∀ i, isWakeupEntryFor fds i = true →
      ((none_set_tokens fds (some tok) ws) i).token = some tok) ∧
    (∀ i, isWakeupEntryFor fds i = true →
      ((g_poll_none fds timeout now0 se (fun _ => false) tok ws).ws i).token = none) ∧
    (∀ i, ((g_poll_none fds timeout now0 se (fun _ => false) tok ws).ws i).signalled
      = (ws i).signalled) ∧
    (∀ i, isWakeupEntryFor fds i = false →
      (g_poll_none fds timeout now0 se (fun _ => false) tok ws).ws i = ws i) := by
  refine ⟨?_, ?_, ?_, ?_⟩
  · intro i h
    simp [none_set_tokens, h]
  · intro i h
    rw [g_poll_none_ws_char]
    simp [h]
  · intro i
    rw [g_poll_none_ws_char]
    by_cases h : isWakeupEntryFor fds i <;> simp [h]
  · intro i h
    rw [g_poll_none_ws_char]
    simp [h]

/-- Closed instance of the C7 theorem on a one-entry poll set. -/
theorem none_token_registered_and_cleared_witness :
    (∀ i, isWakeupEntryFor [⟨G_WAIT_WAKEUP_HANDLE, gIOIn, GIOCondition.empty, 0⟩] i = true →
      ((none_set_tokens [⟨G_WAIT_WAKEUP_HANDLE, gIOIn, GIOCondition.empty, 0⟩] (some 4)
          (fun _ => ⟨true, none⟩)) i).token = some 4) ∧
    (∀ i, isWakeupEntryFor [⟨G_WAIT_WAKEUP_HANDLE, gIOIn, GIOCondition.empty, 0⟩] i = true →
      ((g_poll_none [⟨G_WAIT_WAKEUP_HANDLE, gIOIn, GIOCondition.empty, 0⟩] 0 0 0
          (fun _ => false) 4 (fun _ => ⟨true, none⟩)).ws i).token = none) ∧
    (∀ i, ((g_poll_none [⟨G_WAIT_WAKEUP_HANDLE, gIOIn, GIOCondition.empty, 0⟩] 0 0 0
          (fun _ => false) 4 (fun _ => ⟨true, none⟩)).ws i).signalled
        = ((fun (_ : Nat) => (⟨true, none⟩ : GWakeupN)) i).signalled) ∧
    (∀ i, isWakeupEntryFor [⟨G_WAIT_WAKEUP_HANDLE, gIOIn, GIOCondition.empty, 0⟩] i = false →
      (g_poll_none [⟨G_WAIT_WAKEUP_HANDLE, gIOIn, GIOCondition.empty, 0⟩] 0 0 0
          (fun _ => false) 4 (fun _ => ⟨true, none⟩)).ws i = ⟨true, none⟩) :=
  none_token_registered_and_cleared [⟨G_WAIT_WAKEUP_HANDLE, gIOIn, GIOCondition.empty, 0⟩]
    0 0 0 4 (fun _ => ⟨true, none⟩)

lemma none_check_zero_of_unsignalled (fds : List GPollFDN) (ws : Nat → GWakeupN)
    (h : ∀ p ∈ fds, (ws p.userData).signalled = false) :
    (none_check ws fds).1 = 0 := by
  rw [none_check_fst]
  have hemp : fds.filter (none_ready ws) = [] := by
    rw [List.filter_eq_nil_iff]
    intro p hp
    rw [none_ready, h p hp]
    simp
  rw [hemp]
  rfl

/-- C6 (amended): in the bare-metal backend, when nothing is ready, no
wakeup is signalled, and the platform sleep hook honors its contract by
not returning before the requested budget has elapsed, a call with
timeout T > 0 returns 0 no earlier than T milliseconds after entry.
(The code performs at most one sleep: the `slept` flag ends the loop on
the pass after it, so the lower bound needs the hook's cooperation —
see the counterexample for a spurious early wake.) -/
theorem none_deadline_lower_bound (fds : List GPollFDN) (timeout now0 se : Int)
    (tok : Nat) (ws : Nat → GWakeupN)
    (ht : 0 < timeout)
    (hsig : ∀ p ∈ fds, (ws p.userData).signalled = false)
    (hse : timeout * G_TIME_SPAN_MILLISECOND ≤ se) :
    (g_poll_none fds timeout now0 se (fun _ => false) tok ws).ready = 0 ∧
    now0 + timeout * G_TIME_SPAN_MILLISECOND ≤
      (g_poll_none fds timeout now0 se (fun _ => false) tok ws).retTime := by
  have hsig1 : ∀ p ∈ fds,
      ((none_set_tokens fds (some tok) ws) p.userData).signalled = false := by
    intro p hp
    rw [none_set_tokens_signalled]
    exact hsig p hp
  have hc1 : (none_check (none_set_tokens fds (some tok) ws) fds).1 = 0 :=
    none_check_zero_of_unsignalled fds _ hsig1
  have hsig2 : ∀ p ∈ fds,
      ((fun i => if (fun (_ : Nat) => false) i = true then
          { (none_set_tokens fds (some tok) ws) i with signalled := true }
        else (none_set_tokens fds (some tok) ws) i) p.userData).signalled = false := by
    intro p hp
    simpa using hsig1 p hp
  have hc2 : (none_check (fun i => if (fun (_ : Nat) => false) i = true then
          { (none_set_tokens fds (some tok) ws) i with signalled := true }
        else (none_set_tokens fds (some tok) ws) i) fds).1 = 0 :=
    none_check_zero_of_unsignalled fds _ hsig2
  simp only [g_poll_none]
  have hcond1 : ¬(0 < (none_check (none_set_tokens fds (some tok) ws) fds).1 ∨
      timeout = 0) := by
    rw [hc1]
    omega
  rw [if_neg hcond1]
  have hdl : ¬(timeout ≠ -1 ∧
      (if timeout = -1 then G_MAXINT64
       else now0 + timeout * G_TIME_SPAN_MILLISECOND) ≤ now0) := by
    rw [if_neg (by omega : ¬timeout = -1)]
    rw [G_TIME_SPAN_MILLISECOND] at hse ⊢
    intro hand
    have := hand.2
    omega
  rw [if_neg hdl]
  constructor
  · exact hc2
  · simpa using hse

/-- Closed instance of the C6 amended theorem. -/
theorem none_deadline_lower_bound_witness :
    (g_poll_none [⟨G_WAIT_WAKEUP_HANDLE, gIOIn, GIOCondition.empty, 0⟩] 5 100 5000
        (fun _ => false) 0 (fun _ => ⟨false, none⟩)).ready = 0 ∧
    100 + 5 * G_TIME_SPAN_MILLISECOND ≤
      (g_poll_none [⟨G_WAIT_WAKEUP_HANDLE, gIOIn, GIOCondition.empty, 0⟩] 5 100 5000
        (fun _ => false) 0 (fun _ => ⟨false, none⟩)).retTime :=
  none_deadline_lower_bound [⟨G_WAIT_WAKEUP_HANDLE, gIOIn, GIOCondition.empty, 0⟩]
    5 100 5000 0 (fun _ => ⟨false, none⟩) (by decide) (by decide) (by decide)

/-- C6 counterexample: with nothing ready and no wakeup signalled, a
sleep hook that returns immediately (spurious wake) makes the call
return 0 at the entry time itself, before the 5 ms deadline, because
the post-sleep pass ends the loop without re-checking the deadline. -/
theorem none_spurious_wake_returns_early :
    (g_poll_none [⟨G_WAIT_WAKEUP_HANDLE, gIOIn, GIOCondition.empty, 0⟩] 5 0 0
        (fun _ => false) 0 (fun _ => ⟨false, none⟩)).ready = 0 ∧
    (g_poll_none [⟨G_WAIT_WAKEUP_HANDLE, gIOIn, GIOCondition.empty, 0⟩] 5 0 0
        (fun _ => false) 0 (fun _ => ⟨false, none⟩)).retTime = 0 ∧
    (0 : Int) < 0 + 5 * G_TIME_SPAN_MILLISECOND := by
  refine ⟨by decide, by decide, by decide⟩

lemma iterate_eq_self_of_idem {α : Type} (f : α → α) (hf : ∀ a, f (f a) = f a)
    (n : Nat) (hn : 1 ≤ n) (x : α) : f^[n] x = f x := by
  obtain ⟨m, rfl⟩ : ∃ m, n = m + 1 := ⟨n - 1, by omega⟩
  rw [Function.iterate_succ_apply]
  exact Function.iterate_fixed (hf x) m

lemma signal_unix_iterate (n c : Nat) : g_wakeup_signal_unix^[n] c = c + n := by
  induction n with
  | zero => rfl
  | succ m ih => rw [Function.iterate_succ_apply', ih]; rfl

lemma kq_trigger_idem (k : Int) (qs : Int → Bool) :
    kq_trigger k (kq_trigger k qs) = kq_trigger k qs := by
  funext q
  unfold kq_trigger
  split <;> rfl

lemma none_signal1_idem (w : Nat) (ws : Nat → GWakeupN) :
    g_wakeup_signal_none w (g_wakeup_signal_none w ws) = g_wakeup_signal_none w ws := by
  funext i
  unfold g_wakeup_signal_none
  by_cases h : i = w <;> simp [h]

lemma kq_signal_pair_iterate (m : Nat) (w : GWakeupKq) (qs : Int → Bool) :
    kq_signal_pair^[m + 1] (w, qs) =
      ({ w with pending := w.pending + (m + 1) },
       match w.kq with
       | some k => kq_trigger k qs
       | none => qs) := by
  induction m with
  | zero =>
    cases hk : w.kq with
    | none =>
      simp [kq_signal_pair, g_wakeup_signal_kq, g_wakeup_signal_unlocked_kq, hk]
    | some k =>
      simp [kq_signal_pair, g_wakeup_signal_kq, g_wakeup_signal_unlocked_kq, hk]
  | succ j ih =>
    rw [Function.iterate_succ_apply', ih]
    cases hk : w.kq with
    | none =>
      simp only [kq_signal_pair, g_wakeup_signal_kq, g_wakeup_signal_unlocked_kq, hk]
      rfl
    | some k =>
      simp only [kq_signal_pair, g_wakeup_signal_kq, g_wakeup_signal_unlocked_kq, hk,
        kq_trigger_idem]
      rfl

lemma kq_observe_of_pending_pos (kqv : Option Int) (p : Nat) (k : Int) (q : Int → Bool)
    (hp : p ≠ 0) : kq_observe ⟨kqv, p⟩ k q = true := by
  rw [kq_observe, g_wakeup_kqueue_realize]
  simp [hp, g_wakeup_signal_unlocked_kq, kq_trigger]

/-- C4: for every WakeupHandle backend, signalling n ≥ 1 times before
the next acknowledge is observably the same as signalling once: the
Win32 event and the bare-metal flag reach the identical state, the
eventfd/pipe counter polls ready exactly as after one signal and one
acknowledge drains it the same way, and the kqueue variant shows one
poll readiness indication and an identical post-acknowledge state. -/
theorem wakeup_signal_coalesces (n : Nat) (hn : 1 ≤ n) (b : Bool) (c : Nat)
    (w : GWakeupKq) (qs : Int → Bool) (k : Int) (u : Nat) (ws : Nat → GWakeupN) :
    (g_wakeup_signal_w32^[n] b = g_wakeup_signal_w32 b ∧
     g_wakeup_acknowledge_w32 (g_wakeup_signal_w32^[n] b) = false) ∧
    (unix_wakeup_ready (g_wakeup_signal_unix^[n] c)
        = unix_wakeup_ready (g_wakeup_signal_unix c) ∧
     g_wakeup_acknowledge_unix (g_wakeup_signal_unix^[n] c)
        = g_wakeup_acknowledge_unix (g_wakeup_signal_unix c)) ∧
    (kq_observe (kq_signal_pair^[n] (w, qs)).1 k (kq_signal_pair^[n] (w, qs)).2
        = kq_observe (kq_signal_pair (w, qs)).1 k (kq_signal_pair (w, qs)).2 ∧
     g_wakeup_acknowledge_kq (kq_signal_pair^[n] (w, qs)).1 (kq_signal_pair^[n] (w, qs)).2
        = g_wakeup_acknowledge_kq (kq_signal_pair (w, qs)).1 (kq_signal_pair (w, qs)).2) ∧
    ((g_wakeup_signal_none u)^[n] ws = g_wakeup_signal_none u ws ∧
     ((g_wakeup_acknowledge_none u ((g_wakeup_signal_none u)^[n] ws)) u).signalled
        = false) := by
  obtain ⟨m, rfl⟩ : ∃ m, n = m + 1 := ⟨n - 1, by omega⟩
  have h1 : kq_signal_pair (w, qs) =
      ({ w with pending := w.pending + 1 },
       match w.kq with
       | some kk => kq_trigger kk qs
       | none => qs) := by
    have h0 := kq_signal_pair_iterate 0 w qs
    simpa using h0
  refine ⟨⟨?_, ?_⟩, ⟨?_, ?_⟩, ⟨?_, ?_⟩, ⟨?_, ?_⟩⟩
  · exact iterate_eq_self_of_idem g_wakeup_signal_w32 (fun a => rfl) _ hn b
  · rfl
  · rw [signal_unix_iterate]
    show decide (c + (m + 1) ≠ 0) = decide (c + 1 ≠ 0)
    rw [decide_eq_decide]
    omega
  · rfl
  · rw [kq_signal_pair_iterate m w qs, h1]
    rw [kq_observe_of_pending_pos w.kq (w.pending + (m + 1)) k _ (by omega)]
    rw [kq_observe_of_pending_pos w.kq (w.pending + 1) k _ (by omega)]
  · rw [kq_signal_pair_iterate m w qs, h1]
    rfl
  · exact iterate_eq_self_of_idem _ (none_signal1_idem u) _ hn ws
  · rw [iterate_eq_self_of_idem _ (none_signal1_idem u) _ hn ws]
    simp [g_wakeup_acknowledge_none]

/-- Closed instance of the C4 theorem at n = 2. -/
theorem wakeup_signal_coalesces_witness :
    (g_wakeup_signal_w32^[2] false = g_wakeup_signal_w32 false ∧
     g_wakeup_acknowledge_w32 (g_wakeup_signal_w32^[2] false) = false) ∧
    (unix_wakeup_ready (g_wakeup_signal_unix^[2] 0)
        = unix_wakeup_ready (g_wakeup_signal_unix 0) ∧
     g_wakeup_acknowledge_unix (g_wakeup_signal_unix^[2] 0)
        = g_wakeup_acknowledge_unix (g_wakeup_signal_unix 0)) ∧
    (kq_observe (kq_signal_pair^[2] (⟨none, 0⟩, fun _ => false)).1 3
          (kq_signal_pair^[2] (⟨none, 0⟩, fun _ => false)).2
        = kq_observe (kq_signal_pair (⟨none, 0⟩, fun _ => false)).1 3
          (kq_signal_pair (⟨none, 0⟩, fun _ => false)).2 ∧
     g_wakeup_acknowledge_kq (kq_signal_pair^[2] (⟨none, 0⟩, fun _ => false)).1
          (kq_signal_pair^[2] (⟨none, 0⟩, fun _ => false)).2
        = g_wakeup_acknowledge_kq (kq_signal_pair (⟨none, 0⟩, fun _ => false)).1
          (kq_signal_pair (⟨none, 0⟩, fun _ => false)).2) ∧
    ((g_wakeup_signal_none 0)^[2] (fun _ => ⟨false, none⟩)
        = g_wakeup_signal_none 0 (fun _ => ⟨false, none⟩) ∧
     ((g_wakeup_acknowledge_none 0
          ((g_wakeup_signal_none 0)^[2] (fun _ => ⟨false, none⟩))) 0).signalled
        = false) :=
  wakeup_signal_coalesces 2 (by decide) false 0 ⟨none, 0⟩ (fun _ => false) 3 0
    (fun _ => ⟨false, none⟩)

lemma countNonemptyReventsK_zero_revents (fds : List GPollFDK) :
    countNonemptyReventsK (kq_zero_revents fds) = 0 := by
  rw [countNonemptyReventsK, List.length_eq_zero, List.filter_eq_nil_iff]
  intro a ha
  rcases List.mem_map.mp ha with ⟨b, _, rfl⟩
  simp

/-- C1 counterexample: in the select backend, one descriptor requesting
Readable and Writable that the kernel reports ready for both makes the
call return 2, although exactly one descriptor has a non-empty result —
the claim's "contributes exactly 1" fails there. -/
theorem select_ret_counts_operations_not_descriptors :
    (g_poll_select [⟨0, ⟨true, true, false, false, false⟩, GIOCondition.empty⟩] 0
        (fun z => z == 0) (fun z => z == 0) (fun _ => false)).1 = 2 ∧
    countNonemptyRevents
      ((g_poll_select [⟨0, ⟨true, true, false, false, false⟩, GIOCondition.empty⟩] 0
        (fun z => z == 0) (fun z => z == 0) (fun _ => false)).2) = 1 := by
  refine ⟨by decide, by decide⟩

lemma g_poll_kqueue_char (fds : List GPollFDK) (timeout : Int) (kqFail regFail : Bool)
    (collect : Option (List KEv)) :
    (g_poll_kqueue fds timeout kqFail regFail collect).1 = -1 ∨
    ∃ evs : List KEv,
      g_poll_kqueue fds timeout kqFail regFail collect =
        (((countNonemptyReventsK
            (evs.foldl kq_apply_event (kq_zero_revents fds)) : Nat) : Int),
         evs.foldl kq_apply_event (kq_zero_revents fds)) := by
  rw [g_poll_kqueue.eq_def]
  split
  · exact Or.inl rfl
  · split
    · exact Or.inl rfl
    · rcases collect with _ | evs
      · exact Or.inl rfl
      · right
        refine ⟨evs, ?_⟩
        dsimp only
        split
        · rfl
        · next hlen =>
          have hevs : evs = [] := by
            rcases evs with _ | ⟨e, es⟩
            · rfl
            · exact absurd (by simp) hlen
          subst hevs
          dsimp only [List.foldl]
          rw [countNonemptyReventsK_zero_revents]
          rfl

/-- C1 (amended): in the kernel-event-queue backend every non-negative
return value equals the number of descriptors whose result is non-empty
(a descriptor ready for several requested operations contributes exactly
1); the select backend instead passes through select's per-operation
bit count, which can exceed that number. -/
theorem kqueue_ret_counts_descriptors (fds : List GPollFDK) (timeout : Int)
    (kqFail regFail : Bool) (collect : Option (List KEv))
    (h : 0 ≤ (g_poll_kqueue fds timeout kqFail regFail collect).1) :
    (g_poll_kqueue fds timeout kqFail regFail collect).1 =
      ((countNonemptyReventsK (g_poll_kqueue fds timeout kqFail regFail collect).2 : Nat)
        : Int) := by
  rcases g_poll_kqueue_char fds timeout kqFail regFail collect with hneg | ⟨evs, heq⟩
  · rw [hneg] at h
    omega
  · rw [heq]

/-- Closed instance of the C1 amended theorem. -/
theorem kqueue_ret_counts_descriptors_witness :
    0 ≤ (g_poll_kqueue [⟨4, gIOIn, gIOIn, 0⟩] 0 false false
        (some [⟨KFilter.fRead, 0, 0, false, false, false, false⟩])).1 ∧
    (g_poll_kqueue [⟨4, gIOIn, gIOIn, 0⟩] 0 false false
        (some [⟨KFilter.fRead, 0, 0, false, false, false, false⟩])).1 =
      ((countNonemptyReventsK (g_poll_kqueue [⟨4, gIOIn, gIOIn, 0⟩] 0 false false
        (some [⟨KFilter.fRead, 0, 0, false, false, false, false⟩])).2 : Nat) : Int) :=
  ⟨by decide,
   kqueue_ret_counts_descriptors [⟨4, gIOIn, gIOIn, 0⟩] 0 false false
     (some [⟨KFilter.fRead, 0, 0, false, false, false, false⟩]) (by decide)⟩

/-- C2 counterexample: in the select backend a call that times out
(select returns 0) leaves a stale non-empty `revents` value from before
the call untouched in its output — the claimed unconditional zeroing at
call entry does not happen. -/
theorem select_timeout_keeps_stale_revents :
    (g_poll_select [⟨0, GIOCondition.empty, gIOIn⟩] 5
        (fun _ => false) (fun _ => false) (fun _ => false)).1 = 0 ∧
    (g_poll_select [⟨0, GIOCondition.empty, gIOIn⟩] 5
        (fun _ => false) (fun _ => false) (fun _ => false)).2
      = [⟨0, GIOCondition.empty, gIOIn⟩] ∧
    gIOIn ≠ GIOCondition.empty := by
  refine ⟨by decide, by decide, by decide⟩

/-- C2 (amended): the kqueue backend zeroes every result before
re-deriving readiness on every path that reaches derivation, so a call
that returns 0 has every result empty; the select backend re-derives
results only when select reports at least one ready operation, and a
call that returns 0 hands the poll set back unchanged, stale result
values included. -/
theorem zeroing_before_rederive_split :
    (∀ (fds : List GPollFDK) (timeout : Int) (kqFail regFail : Bool)
       (collect : Option (List KEv)),
       (g_poll_kqueue fds timeout kqFail regFail collect).1 = 0 →
       ∀ p ∈ (g_poll_kqueue fds timeout kqFail regFail collect).2,
         p.revents = GIOCondition.empty) ∧
    (∀ (fds : List GPollFD) (timeout : Int) (rR rW rX : Int → Bool),
       (g_poll_select fds timeout rR rW rX).1 = 0 →
       (g_poll_select fds timeout rR rW rX).2 = fds) := by
  constructor
  · intro fds timeout kqFail regFail collect h p hp
    rcases g_poll_kqueue_char fds timeout kqFail regFail collect with hneg | ⟨evs, heq⟩
    · rw [hneg] at h
      exact absurd h (by decide)
    · rw [heq] at h hp
      dsimp only at h hp
      have hcnt : countNonemptyReventsK
          (evs.foldl kq_apply_event (kq_zero_revents fds)) = 0 := by
        exact_mod_cast h
      rw [countNonemptyReventsK, List.length_eq_zero, List.filter_eq_nil_iff] at hcnt
      have := hcnt p hp
      simpa using this
  · intro fds timeout rR rW rX h
    rw [g_poll_select] at h ⊢
    split at h
    · next hpos =>
      dsimp only at h
      rw [h] at hpos
      exact absurd hpos (by decide)
    · next hneg =>
      rw [if_neg hneg]

/-- Closed instance of the C2 amended theorem (instantiating both
universally quantified components on concrete timed-out calls). -/
theorem zeroing_before_rederive_split_witness :
    ((g_poll_kqueue [⟨4, gIOIn, gIOIn, 0⟩] 0 false false (some [])).1 = 0 →
      ∀ p ∈ (g_poll_kqueue [⟨4, gIOIn, gIOIn, 0⟩] 0 false false (some [])).2,
        p.revents = GIOCondition.empty) ∧
    ((g_poll_select [⟨0, GIOCondition.empty, gIOIn⟩] 5
        (fun _ => false) (fun _ => false) (fun _ => false)).1 = 0 →
      (g_poll_select [⟨0, GIOCondition.empty, gIOIn⟩] 5
        (fun _ => false) (fun _ => false) (fun _ => false)).2
        = [⟨0, GIOCondition.empty, gIOIn⟩]) :=
  ⟨zeroing_before_rederive_split.1 [⟨4, gIOIn, gIOIn, 0⟩] 0 false false (some []),
   zeroing_before_rederive_split.2 [⟨0, GIOCondition.empty, gIOIn⟩] 5
     (fun _ => false) (fun _ => false) (fun _ => false)⟩

lemma sum_range_map_const (n b : Nat) : ((List.range n).map (fun _ => b)).sum = n * b := by
  induction n with
  | zero => simp
  | succ m ih =>
    rw [List.range_succ, List.map_append, List.sum_append, ih]
    simp [Nat.succ_mul]

lemma sum_range_map_ite_last (n a b : Nat) :
    ((List.range (n + 1)).map (fun i => if i = n then a else b)).sum = n * b + a := by
  rw [List.range_succ, List.map_append, List.sum_append]
  have hmap : (List.range n).map (fun i => if i = n then a else b)
      = (List.range n).map (fun _ => b) := by
    apply List.map_congr_left
    intro i hi
    rw [if_neg (Nat.ne_of_lt (List.mem_range.mp hi))]
  rw [hmap, sum_range_map_const]
  simp

lemma win32_nthreads_eq_ceil (nfds : Nat) (h1 : 64 < nfds) (h2 : nfds ≤ 3969) :
    win32_nthreads nfds = (nfds + 62) / 63 := by
  simp only [win32_nthreads, MAXIMUM_WAIT_OBJECTS_PER_THREAD, MAXIMUM_WAIT_OBJECTS]
  split_ifs <;> omega

lemma fill_step_nhandles_le (d : W32ThreadData) (f : GPollFDW)
    (h : d.nhandles ≤ 64) : (fill_step d f).nhandles ≤ 64 := by
  simp only [fill_step, MAXIMUM_WAIT_OBJECTS]
  split_ifs with h1 h2 h3
  · exact h
  · exact h
  · dsimp only
    have hne : d.nhandles ≠ 64 := fun hc => h1 (Or.inl hc)
    omega
  · exact h

lemma fill_foldl_nhandles_le (fds : List GPollFDW) (d : W32ThreadData)
    (h : d.nhandles ≤ 64) : (fds.foldl fill_step d).nhandles ≤ 64 := by
  induction fds generalizing d with
  | nil => exact h
  | cons f fs ih => exact ih _ (fill_step_nhandles_le d f h)

/-- C8 (amended): for poll sets whose size N exceeds the per-call object
ceiling C = 64 but stays within (C-1)·(C-1), the handle-wait backend
partitions the descriptors into exactly ceil(N/(C-1)) groups of at most
C-1 descriptors each, the groups covering the set exactly, and no
native wait call is ever issued with more than C objects (one handle
slot per group is reserved for the stop event).  Beyond (C-1)·(C-1) the
group count is capped at C-1 — see the counterexample. -/
theorem win32_fanout_partition (nfds : Nat)
    (h1 : MAXIMUM_WAIT_OBJECTS < nfds)
    (h2 : nfds ≤ MAXIMUM_WAIT_OBJECTS_PER_THREAD * MAXIMUM_WAIT_OBJECTS_PER_THREAD) :
    win32_nthreads nfds = (nfds + 62) / 63 ∧
    (win32_group_sizes nfds).length = win32_nthreads nfds ∧
    (∀ s ∈ win32_group_sizes nfds, s ≤ MAXIMUM_WAIT_OBJECTS_PER_THREAD) ∧
    (win32_group_sizes nfds).sum = nfds ∧
    (∀ (fds : List GPollFDW) (stop : Bool),
      (fill_poll_thread_data fds stop ⟨0, false, false⟩).nhandles
        ≤ MAXIMUM_WAIT_OBJECTS) := by
  rw [MAXIMUM_WAIT_OBJECTS] at h1
  rw [MAXIMUM_WAIT_OBJECTS_PER_THREAD, MAXIMUM_WAIT_OBJECTS] at h2
  have h2n : nfds ≤ 3969 := by omega
  have hceil := win32_nthreads_eq_ceil nfds h1 h2n
  refine ⟨hceil, ?_, ?_, ?_, ?_⟩
  · rw [win32_group_sizes, List.length_map, List.length_range]
  · intro s hs
    rcases List.mem_map.mp hs with ⟨i, _, rfl⟩
    rw [win32_thread_fds]
    simp only [MAXIMUM_WAIT_OBJECTS_PER_THREAD, MAXIMUM_WAIT_OBJECTS]
    split_ifs <;> omega
  · rw [win32_group_sizes]
    by_cases hr : 0 < nfds % 63
    · have ht : win32_nthreads nfds = nfds / 63 + 1 := by
        rw [hceil]
        omega
      rw [ht]
      have hfun : ∀ i ∈ List.range (nfds / 63 + 1),
          win32_thread_fds nfds i = (if i = nfds / 63 then nfds % 63 else 63) := by
        intro i _
        rw [win32_thread_fds, ht]
        simp only [MAXIMUM_WAIT_OBJECTS_PER_THREAD, MAXIMUM_WAIT_OBJECTS]
        have hcc : (nfds / 63 + 1 - 1 = nfds / 63) := by omega
        rw [hcc]
        have hrr : 0 < nfds % (64 - 1) := hr
        simp [hrr]
      rw [List.map_congr_left hfun, sum_range_map_ite_last]
      omega
    · have ht : win32_nthreads nfds = nfds / 63 := by
        rw [hceil]
        omega
      rw [ht]
      have hfun : ∀ i ∈ List.range (nfds / 63), win32_thread_fds nfds i = 63 := by
        intro i _
        rw [win32_thread_fds]
        simp only [MAXIMUM_WAIT_OBJECTS_PER_THREAD, MAXIMUM_WAIT_OBJECTS]
        have hrr : ¬ 0 < nfds % (64 - 1) := hr
        simp [hrr]
      rw [List.map_congr_left hfun, sum_range_map_const]
      omega
  · intro fds stop
    rw [MAXIMUM_WAIT_OBJECTS]
    simp only [fill_poll_thread_data]
    apply fill_foldl_nhandles_le
    split_ifs <;> simp

/-- Closed instance of the C8 amended theorem at N = 100. -/
theorem win32_fanout_partition_witness :
    win32_nthreads 100 = (100 + 62) / 63 ∧
    (win32_group_sizes 100).length = win32_nthreads 100 ∧
    (∀ s ∈ win32_group_sizes 100, s ≤ MAXIMUM_WAIT_OBJECTS_PER_THREAD) ∧
    (win32_group_sizes 100).sum = 100 ∧
    (∀ (fds : List GPollFDW) (stop : Bool),
      (fill_poll_thread_data fds stop ⟨0, false, false⟩).nhandles
        ≤ MAXIMUM_WAIT_OBJECTS) :=
  win32_fanout_partition 100 (by decide) (by decide)

/-- C8 counterexample: at N = 3970 the claimed group count
ceil(N/(C-1)) is 64, but the code caps the number of worker threads at
63 (with a warning), so the partition the claim describes does not
happen for every N above the ceiling. -/
theorem win32_fanout_cap_at_63 :
    MAXIMUM_WAIT_OBJECTS < 3970 ∧ win32_nthreads 3970 = 63 ∧ (3970 + 62) / 63 = 64 := by
  refine ⟨by decide, by decide, by decide⟩
